import Mathlib

/-
A shallow embedding of `src/main.py` (flats_parser): a two-stage scraper for
the domodedovograd.ru real-estate catalog.  HTTP traffic is modelled by
explicit oracles (one outcome per `session.get` call); pure string/number
manipulation is translated directly from the Python source.
-/

set_option autoImplicit false

namespace DomodedovoGrad

/-! ### Python string and number primitives -/

/-- Characters stripped by Python's `int()` / `float()` leading/trailing
whitespace removal. -/
def isPyWs (c : Char) : Bool :=
  c = ' ' || c = '\t' || c = '\n' || c = '\x0d' || c = '\x0b' || c = '\x0c'

/-- Strip leading and trailing whitespace from a character list. -/
def stripWs (cs : List Char) : List Char :=
  ((cs.dropWhile isPyWs).reverse.dropWhile isPyWs).reverse

/-- Numeric value of a list of decimal digit characters, most significant
first. -/
def digitsVal (cs : List Char) : Nat :=
  cs.foldl (fun a c => a * 10 + (c.toNat - 48)) 0

/-- Parse a nonempty all-digit character list; `none` otherwise. -/
def natOfDigits (cs : List Char) : Option Nat :=
  if cs ≠ [] ∧ cs.all Char.isDigit then some (digitsVal cs) else none

/-- Model of CPython `int(s)` restricted to plain base-10 literals:
optional surrounding whitespace, optional sign, decimal digits.
(Underscore separators are outside the modelled fragment.) -/
def pyInt (s : String) : Option Int :=
  match stripWs s.data with
  | [] => none
  | c :: rest =>
    if c = '-' then (natOfDigits rest).map (fun n => -(n : Int))
    else if c = '+' then (natOfDigits rest).map (fun n => (n : Int))
    else (natOfDigits (c :: rest)).map (fun n => (n : Int))

/-- Value of an unsigned decimal literal split into integer part `ip` and
the remainder `rest` of the character stream: `digits`, `digits.digits`,
`digits.` or `.digits`.  The value `ip + 0.fp` is built as the single
normalized fraction `(ip * 10 ^ |fp| + fp) / 10 ^ |fp|` via `mkRat`. -/
def floatParts (ip rest : List Char) : Option ℚ :=
  match rest with
  | [] => if ip = [] then none else some (mkRat (Int.ofNat (digitsVal ip)) 1)
  | c :: fp =>
    if c = '.' then
      if fp.all Char.isDigit then
        if ip = [] ∧ fp = [] then none
        else some (mkRat
          (Int.ofNat (digitsVal ip * 10 ^ fp.length + digitsVal fp))
          (10 ^ fp.length))
      else none
    else none

/-- Unsigned decimal-literal body of CPython `float(s)`, valued in `ℚ`.
(Exponents, `inf`/`nan` and underscore separators are outside the modelled
fragment; the literals occurring on the scraped pages are plain decimals,
whose exact value the `ℚ` semantics shares with IEEE evaluation.) -/
def floatBody (cs : List Char) : Option ℚ :=
  floatParts (cs.takeWhile Char.isDigit) (cs.dropWhile Char.isDigit)

/-- Model of CPython `float(s)` on plain decimal literals. -/
def pyFloat (s : String) : Option ℚ :=
  match stripWs s.data with
  | [] => none
  | c :: rest =>
    if c = '-' then (floatBody rest).map Rat.neg
    else if c = '+' then floatBody rest
    else floatBody (c :: rest)

/-- `s.replace(',', '.')` — one-character replacement is a character map. -/
def replaceCommas (s : String) : String :=
  ⟨s.data.map (fun c => if c = ',' then '.' else c)⟩

/-- `''.join([char for char in s if char.isdigit()])` (ASCII digits; the
exotic Unicode digit classes accepted by `str.isdigit` do not occur on the
scraped pages). -/
def filterDigits (s : String) : String :=
  ⟨s.data.filter Char.isDigit⟩

/-- Python's substring test `needle in hay` on strings, as character
lists. -/
def inStr (needle : List Char) : List Char → Bool
  | [] => needle.isEmpty
  | c :: rest => needle.isPrefixOf (c :: rest) || inStr needle rest

/-- `s.strip('/')`: remove leading and trailing slash characters. -/
def stripSlashes (s : String) : String :=
  ⟨((s.data.dropWhile (fun c => c = '/')).reverse.dropWhile (fun c => c = '/')).reverse⟩

/-! ### `DomodedovoGradUrlsParser` (catalog enumerator)

`__get_flats_amount` fetches a JSON count endpoint.  Each `session.get`
is modelled by one oracle outcome: a network timeout (the only exception
the method catches), or a response carrying a status code and a body that
either fails `json.loads` or parses to an object with integer field
`prodCount`. -/

/-- Outcome of `json.loads` on the smart-filter response body. -/
inductive JsonBody where
  | malformed
  | parsed (prodCount : Int)
deriving DecidableEq

/-- One `session.get` outcome inside `__get_flats_amount`. -/
inductive GFetch where
  | timeout
  | response (status : Nat) (body : JsonBody)
deriving DecidableEq

/-- The `while retries:` loop of `DomodedovoGradUrlsParser.__get_flats_amount`
(src/main.py:76-98).  `i` indexes successive `session.get` calls; the result
is `none` when the loop exhausts its retries and the method implicitly
returns Python `None`. -/
def get_flats_amount_from (net : Nat → GFetch) : Nat → Nat → Option Int
  | _, 0 => none
  | i, Nat.succ r =>
    match net i with
    | GFetch.timeout => get_flats_amount_from net (i + 1) r
    | GFetch.response st body =>
      if st ≠ 200 then some 0
      else
        match body with
        | JsonBody.malformed => some 0
        | JsonBody.parsed c => some c

/-- `DomodedovoGradUrlsParser.__get_flats_amount` with `retries = 3`. -/
def get_flats_amount (net : Nat → GFetch) : Option Int :=
  get_flats_amount_from net 0 3

/-- `DomodedovoGradUrlsParser._calculate_paging` (src/main.py:111-122).
Python `//` and `%` on ints are floor division and divisor-signed
remainder, i.e. `Int.fdiv` / `Int.fmod`; `not n` on an int means `n == 0`. -/
def calculate_paging (flats_amount flats_per_page : Int) : Int :=
  if flats_amount = 0 ∨ flats_per_page = 0 then 0
  else if Int.fmod flats_amount flats_per_page = 0 then
    Int.fdiv flats_amount flats_per_page
  else Int.fdiv flats_amount flats_per_page + 1

/-- The call `self._calculate_paging(flats_amount, flats_per_page)` inside
`collect`, where `flats_amount` may be Python `None` (returned by
`__get_flats_amount` after three timeouts).  `not None` is truthy, so the
first guard of `_calculate_paging` returns 0. -/
def calculate_paging_arg : Option Int → Int → Int
  | none, _ => 0
  | some n, p => calculate_paging n p

/-! #### Catalog page fetching and `collect` -/

/-- A catalog-page response: the HTTP status code together with the value of
`__parse_flats_urls_on_page(response.text)` (the `product-card` hrefs). -/
structure CatalogPage where
  status : Nat
  hrefs : List String
deriving DecidableEq

/-- One `session.get` outcome for a catalog page.  These calls are not
wrapped in `try`, so a timeout raises out of the caller (modelled `none`). -/
inductive PFetch where
  | timeout
  | resp (page : CatalogPage)
deriving DecidableEq

/-- Outcome of the single `session.get` in
`DomodedovoGradUrlsParser.__get_count_per_page` (src/main.py:100-109). -/
inductive CFetch where
  | timeout
  | resp (status : Nat) (hrefs : List String)
deriving DecidableEq

/-- `DomodedovoGradUrlsParser.__get_count_per_page`: 0 on a non-200 status,
otherwise the number of parsed card hrefs; `none` models the uncaught
`requests.Timeout`. -/
def get_count_per_page : CFetch → Option Nat
  | CFetch.timeout => none
  | CFetch.resp st hrefs => some (if st ≠ 200 then 0 else hrefs.length)

/-- The inner `while retries:` loop of
`DomodedovoGradUrlsParser.get_flats_urls` (src/main.py:124-134) for one
page URL.  The loop always runs its full budget — `retries` is decremented
even after a successful fetch — extending the accumulator on every 200
response; an uncaught timeout aborts the whole method (`none`). -/
def get_page_urls_from (f : Nat → PFetch) : Nat → Nat → Option (List String)
  | _, 0 => some []
  | i, Nat.succ r =>
    match f i with
    | PFetch.timeout => none
    | PFetch.resp pg =>
      (get_page_urls_from f (i + 1) r).map
        (fun rest => (if pg.status = 200 then pg.hrefs else []) ++ rest)

/-- `DomodedovoGradUrlsParser.get_flats_urls` over a list of page URLs,
before the final `set(result)`.  The oracle gives each `session.get`
outcome per page URL and per retry-loop iteration. -/
def get_flats_urls (oracle : String → Nat → PFetch) : List String → Option (List String)
  | [] => some []
  | u :: rest =>
    match get_page_urls_from (oracle u) 0 3 with
    | none => none
    | some hs =>
      match get_flats_urls oracle rest with
      | none => none
      | some hs2 => some (hs ++ hs2)

/-- `self.base_url` of `DomodedovoGradUrlsParser`. -/
def urls_base : String := "https://www.domodedovograd.ru/domodedovo?grp=242602&page="

/-- `DomodedovoGradUrlsParser.collect` (src/main.py:136-146).  `set(result)`
is modelled by `List.dedup` (first occurrences kept).  The final guard
`if len(res) != flats_amount: return set()` compares an `int` with the
value of `__get_flats_amount`, which may be Python `None`; `len(res) != None`
is `True`, so that case also yields the empty set. -/
def urls_collect (gfaNet : Nat → GFetch) (cpp : CFetch)
    (oracle : String → Nat → PFetch) : Option (List String) :=
  (get_count_per_page cpp).bind fun per =>
    (get_flats_urls oracle
        ((List.range (calculate_paging_arg (get_flats_amount gfaNet) (per : Int)).toNat).map
          (fun k => urls_base ++ toString (k + 1)))).bind fun res =>
      match get_flats_amount gfaNet with
      | none => some []
      | some n => if ((res.dedup.length : Int) = n) then some res.dedup else some []

/-! ### `DomodedovoGradFlatsParser` (detail extractor) -/

/-- The room count of a listing: an integer, or the `'studio'` sentinel
string. -/
inductive Rooms where
  | num (n : Int)
  | studio
deriving DecidableEq

/-- One entry of the `flat-images.json` response; `sm` is absent when the
object lacks that key, in which case Python's `str(None)` yields `"None"`. -/
structure PlanImage where
  sm : Option String
deriving DecidableEq

/-- The fields of the `ResponseSchema` record that
`DomodedovoGradFlatsParser.parse_flat_page` populates (src/main.py:192-209).
`section` is a Lean keyword, hence `section_`; values keep the Python types
actually stored (`floor` is stored as the raw string from the page). -/
structure ResponseSchema where
  complex : String
  type : String
  building : String
  section_ : String
  floor : String
  number : String
  number_on_site : String
  rooms : Rooms
  area : ℚ
  living_area : ℚ
  phase : String
  plan : Option String
  price_finished : ℚ
  sale_status : Option String
  in_sale : Bool
  finished : Int
deriving DecidableEq

/-- The structural content `parse_flat_page` extracts from a listing page
via its fixed XPath selectors: breadcrumb texts, presence of the
reservation badge, the `dl.spec.mb-30` definition-list values, the
price-bar texts, and the HTML comment nodes. -/
structure FlatPage where
  breadcrumbs : List String
  is_reserved : Bool
  params_dl : List String
  price_bar : List String
  comments : List String
deriving DecidableEq

/-- `self.url_adapter` of `DomodedovoGradFlatsParser`. -/
def url_adapter : String := "https://www.domodedovograd.ru/"

/-- The studio marker substring checked against the first breadcrumb. -/
def studio_marker : String := "Студия"

/-- The conditional expression
`int(params_dl[4]) if 'Студия' not in flat_type else 'studio'`
(src/main.py:172): the studio branch never evaluates `int()`. -/
def rooms_of (flat_type roomsStr : String) : Option Rooms :=
  if inStr studio_marker.data flat_type.data then some Rooms.studio
  else (pyInt roomsStr).map Rooms.num

/-- The plan-image URL computation of src/main.py:184-190: `if plan_images:`
is falsy for Python `None` and for an empty list; `str(None)` is the
literal `"None"` when the first entry lacks the `sm` key. -/
def plan_of (plans : Option (List PlanImage)) : Option String :=
  match plans with
  | some (img :: _) =>
    some (url_adapter ++ stripSlashes (match img.sm with
      | some sm => sm
      | none => "None"))
  | _ => none

/-- `sale_status = 'Забронировано' if is_reserved else None`
(src/main.py:175). -/
def sale_status_of (is_reserved : Bool) : Option String :=
  if is_reserved then some "Забронировано" else none

/-- `DomodedovoGradFlatsParser.parse_flat_page` (src/main.py:159-209).
`plans` is the value returned by the `get_plan_images` network call
(`none` models a non-200 or absent response).  Any failing step — an
index past the end of an XPath result list, `int()` on a non-integer room
string, `float()` on an unparsable area or on an empty digit string —
raises in Python; all such raises are modelled as `none`. -/
def parse_flat_page (plans : Option (List PlanImage)) (p : FlatPage) :
    Option ResponseSchema :=
  match p.breadcrumbs with
  | [] => none
  | flat_type :: _ =>
    match p.params_dl with
    | building :: section_ :: floor :: number :: roomsStr :: areaStr :: phase :: _ =>
      (match rooms_of flat_type roomsStr with
       | none => none
       | some rooms =>
         match pyFloat (replaceCommas areaStr) with
         | none => none
         | some area =>
           match p.price_bar with
           | [] => none
           | priceText :: _ =>
             match pyFloat (filterDigits priceText) with
             | none => none
             | some price_finished =>
               match p.comments with
               | [] => none
               | c0 :: _ =>
                 some
                   { complex := "Домодедово парк(Московская область, г.Домодедово, с.Домодедово, ул.Творчества)"
                     type := "flat"
                     building := building
                     section_ := section_
                     floor := floor
                     number := number
                     number_on_site := filterDigits c0
                     rooms := rooms
                     area := area
                     living_area := area
                     phase := phase
                     plan := plan_of plans
                     price_finished := price_finished
                     sale_status := sale_status_of p.is_reserved
                     in_sale := true
                     finished := 1 })
    | _ => none

/-- One `session.get` outcome inside `DomodedovoGradFlatsParser
.get_flat_page`: a timeout (caught by the method), a non-timeout network
exception (uncaught there, caught by `collect`), or a response. -/
inductive FFetch where
  | timeout
  | neterr
  | resp (status : Nat) (text : String)
deriving DecidableEq

/-- The `while retries:` loop of `DomodedovoGradFlatsParser.get_flat_page`
(src/main.py:211-221): a timeout is swallowed and retried, a 200 response
returns its text, a non-200 response merely consumes a retry, and an
exhausted budget falls off the loop returning Python `None`
(`Except.ok none`); a non-timeout exception propagates (`Except.error`). -/
def get_flat_page_from (net : Nat → FFetch) : Nat → Nat → Except Unit (Option String)
  | _, 0 => Except.ok none
  | i, Nat.succ r =>
    match net i with
    | FFetch.timeout => get_flat_page_from net (i + 1) r
    | FFetch.neterr => Except.error ()
    | FFetch.resp st t =>
      if st = 200 then Except.ok (some t) else get_flat_page_from net (i + 1) r

/-- `DomodedovoGradFlatsParser.get_flat_page` with `retries = 3`. -/
def get_flat_page (net : Nat → FFetch) : Except Unit (Option String) :=
  get_flat_page_from net 0 3

/-- `DomodedovoGradFlatsParser.collect` (src/main.py:223-235) over the URL
set in iteration order.  `parsePage` is the denotation of
`self.parse_flat_page` on the fetched page text (`none` when it raises).
Only exceptions raised inside `self.get_flat_page(flat_url)` are caught by
the `try`; the `else:` block is outside it, so when `get_flat_page`
returns `None` after exhausting its retries, `parse_flat_page(None)`
(`lxml.html.fromstring(None)` raises `ValueError`) crashes the whole call,
as does a parse failure on real page text — modelled as `Except.error`.
The returned record list is what `json.dumps(result, ensure_ascii=False)`
serializes. -/
def flats_collect (net : String → Nat → FFetch)
    (parsePage : String → Option ResponseSchema) :
    List String → Except Unit (List ResponseSchema)
  | [] => Except.ok []
  | u :: rest =>
    match get_flat_page (net u) with
    | Except.error _ => flats_collect net parsePage rest
    | Except.ok none => Except.error ()
    | Except.ok (some t) =>
      match parsePage t with
      | none => Except.error ()
      | some r =>
        match flats_collect net parsePage rest with
        | Except.error e => Except.error e
        | Except.ok rs => Except.ok (r :: rs)

/-! #### Concrete example pages and environments -/

/-- A two-room listing page whose area entry uses a comma decimal
separator. -/
def goodPage : FlatPage :=
  { breadcrumbs := ["2-комнатная квартира"]
    is_reserved := false
    params_dl := ["корпус 8", "2", "3", "101", "2", "12,5", "1"]
    price_bar := ["12 500 000 ₽"]
    comments := ["<!-- 4242 -->"] }

/-- The record `parse_flat_page` extracts from `goodPage` (plan endpoint
absent). -/
def goodRecord : ResponseSchema :=
  { complex := "Домодедово парк(Московская область, г.Домодедово, с.Домодедово, ул.Творчества)"
    type := "flat"
    building := "корпус 8"
    section_ := "2"
    floor := "3"
    number := "101"
    number_on_site := "4242"
    rooms := Rooms.num 2
    area := mkRat 25 2
    living_area := mkRat 25 2
    phase := "1"
    plan := none
    price_finished := mkRat 12500000 1
    sale_status := none
    in_sale := true
    finished := 1 }

/-- A studio listing page: the breadcrumb carries the studio marker while
the definition list still shows a numeric rooms entry. -/
def studioPage : FlatPage :=
  { breadcrumbs := ["Студия 25 м²"]
    is_reserved := false
    params_dl := ["к1", "с1", "2", "10", "0", "25,0", "1"]
    price_bar := ["5 000 000 ₽"]
    comments := ["<!-- 777 -->"] }

/-- The record `parse_flat_page` extracts from `studioPage`. -/
def studioRecord : ResponseSchema :=
  { complex := "Домодедово парк(Московская область, г.Домодедово, с.Домодедово, ул.Творчества)"
    type := "flat"
    building := "к1"
    section_ := "с1"
    floor := "2"
    number := "10"
    number_on_site := "777"
    rooms := Rooms.studio
    area := mkRat 25 1
    living_area := mkRat 25 1
    phase := "1"
    plan := none
    price_finished := mkRat 5000000 1
    sale_status := none
    in_sale := true
    finished := 1 }

/-- A listing page whose sixth definition-list entry is a negative decimal
string. -/
def negPage : FlatPage :=
  { breadcrumbs := ["2-комнатная"]
    is_reserved := false
    params_dl := ["к", "с", "3", "101", "2", "-12,5", "1"]
    price_bar := ["1 ₽"]
    comments := ["<!-- 5 -->"] }

/-- A fetch environment for `DomodedovoGradFlatsParser.collect` in which
every attempt on the second URL times out while every other URL answers
200 immediately. -/
def oneUrlTimesOut : String → Nat → FFetch :=
  fun u _ => if u = "u2" then FFetch.timeout else FFetch.resp 200 "page"

/-- A page-parse denotation under which every fetched page text parses to
the `goodPage` record. -/
def alwaysParses : String → Option ResponseSchema :=
  fun _ => parse_flat_page none goodPage

end DomodedovoGrad

namespace DomodedovoGrad

/-- Claim C1: for every `flats_amount ≥ 0` and `flats_per_page ≥ 0`,
`_calculate_paging` returns 0 if either argument is 0, returns
`flats_amount // flats_per_page` when the remainder is 0, and returns the
quotient plus one otherwise (a ceiling division, as the fourth conjunct
records); in particular `_calculate_paging 100 24 = 5`,
`_calculate_paging 96 24 = 4` and `_calculate_paging 0 24 = 0`. -/
theorem calculate_paging_spec (a p : Int) (ha : 0 ≤ a) (hp : 0 ≤ p) :
    ((a = 0 ∨ p = 0) → calculate_paging a p = 0)
    ∧ (a ≠ 0 → p ≠ 0 → Int.fmod a p = 0 → calculate_paging a p = Int.fdiv a p)
    ∧ (a ≠ 0 → p ≠ 0 → Int.fmod a p ≠ 0 → calculate_paging a p = Int.fdiv a p + 1)
    ∧ (0 < a → 0 < p → calculate_paging a p = Int.fdiv (a + p - 1) p)
    ∧ calculate_paging 100 24 = 5 ∧ calculate_paging 96 24 = 4
    ∧ calculate_paging 0 24 = 0 := by
  refine ⟨?_, ?_, ?_, ?_, by decide, by decide, by decide⟩
  · intro h
    simp [calculate_paging, h]
  · intro h1 h2 h3
    simp [calculate_paging, h1, h2, h3]
  · intro h1 h2 h3
    simp [calculate_paging, h1, h2, h3]
  · intro h1 h2
    have hp0 : p ≠ 0 := by omega
    have hfd : ∀ x : Int, Int.fdiv x p = x / p := fun x => Int.fdiv_eq_ediv x hp
    have hfm : Int.fmod a p = a % p := Int.fmod_eq_emod a hp
    have hdm := Int.ediv_add_emod a p
    have hr0 : 0 ≤ a % p := Int.emod_nonneg a hp0
    have hrlt : a % p < p := Int.emod_lt_of_pos a h2
    rw [calculate_paging, if_neg (by omega), hfm, hfd, hfd]
    by_cases hr : a % p = 0
    · rw [if_pos hr]
      have ha2 : a + p - 1 = (p - 1) + p * (a / p) := by omega
      rw [ha2, Int.add_mul_ediv_left _ _ hp0,
        Int.ediv_eq_zero_of_lt (show (0 : Int) ≤ p - 1 by omega)
          (show p - 1 < p by omega), zero_add]
    · rw [if_neg hr]
      have hq : p * (a / p + 1) = p * (a / p) + p := by ring
      have ha2 : a + p - 1 = (a % p - 1) + p * (a / p + 1) := by rw [hq]; omega
      rw [ha2, Int.add_mul_ediv_left _ _ hp0,
        Int.ediv_eq_zero_of_lt (show (0 : Int) ≤ a % p - 1 by omega)
          (show a % p - 1 < p by omega), zero_add]

/-- Witness for `calculate_paging_spec` at the concrete example inputs. -/
theorem calculate_paging_spec_witness :
    calculate_paging 100 24 = 5 ∧ calculate_paging 96 24 = 4
    ∧ calculate_paging 0 24 = 0 :=
  ⟨(calculate_paging_spec 100 24 (by decide) (by decide)).2.2.2.2.1,
   (calculate_paging_spec 96 24 (by decide) (by decide)).2.2.2.2.2.1,
   (calculate_paging_spec 0 24 (by decide) (by decide)).2.2.2.2.2.2⟩

/-- Claim C2: whenever `DomodedovoGradUrlsParser.collect` returns a value
(rather than propagating an uncaught exception), that value is either the
empty set or a set whose size equals the listing count fetched by
`__get_flats_amount` at the start of the call. -/
theorem urls_collect_empty_or_matches (gfaNet : Nat → GFetch) (cpp : CFetch)
    (oracle : String → Nat → PFetch) (s : List String)
    (h : urls_collect gfaNet cpp oracle = some s) :
    s = [] ∨ get_flats_amount gfaNet = some ((s.length : Int)) := by
  simp only [urls_collect, Option.bind_eq_some] at h
  obtain ⟨per, hper, res, hres, h⟩ := h
  cases hfa : get_flats_amount gfaNet with
  | none =>
    rw [hfa] at h
    left
    exact (Option.some.inj h).symm
  | some n =>
    rw [hfa] at h
    have h2 : (if ((res.dedup.length : Int) = n) then some res.dedup
        else some ([] : List String)) = some s := h
    by_cases hlen : ((res.dedup.length : Int) = n)
    · rw [if_pos hlen] at h2
      right
      obtain rfl : res.dedup = s := Option.some.inj h2
      rw [hlen]
    · rw [if_neg hlen] at h2
      left
      exact (Option.some.inj h2).symm

/-- Witness for `urls_collect_empty_or_matches`: a consistent scrape with
one listing on one page returns that singleton set, whose size matches the
fetched count. -/
theorem urls_collect_empty_or_matches_witness :
    urls_collect (fun _ => GFetch.response 200 (JsonBody.parsed 1))
        (CFetch.resp 200 ["a"]) (fun _ _ => PFetch.resp ⟨200, ["u"]⟩) = some ["u"]
    ∧ (["u"] = []
       ∨ get_flats_amount (fun _ => GFetch.response 200 (JsonBody.parsed 1))
         = some (((["u"] : List String).length : Int))) :=
  ⟨by decide,
   urls_collect_empty_or_matches (fun _ => GFetch.response 200 (JsonBody.parsed 1))
     (CFetch.resp 200 ["a"]) (fun _ _ => PFetch.resp ⟨200, ["u"]⟩) ["u"] (by decide)⟩

/-- Claim C4: `DomodedovoGradUrlsParser.__get_flats_amount` makes up to 3
attempts, abandoning an attempt and retrying only on a network timeout; on
the first attempt that receives a response it returns 0 for a non-200
status or a body that fails `json.loads`, and the parsed `prodCount` field
otherwise; three timeouts exhaust the budget. -/
theorem get_flats_amount_spec (net : Nat → GFetch) (i : Nat) (hi : i < 3)
    (hto : ∀ j, j < i → net j = GFetch.timeout) :
    (∀ st b, net i = GFetch.response st b → st ≠ 200 →
      get_flats_amount net = some 0)
    ∧ (net i = GFetch.response 200 JsonBody.malformed →
      get_flats_amount net = some 0)
    ∧ (∀ c, net i = GFetch.response 200 (JsonBody.parsed c) →
      get_flats_amount net = some c)
    ∧ ((∀ j, j < 3 → net j = GFetch.timeout) → get_flats_amount net = none) := by
  refine ⟨?_, ?_, ?_, ?_⟩
  · intro st b hresp hst
    interval_cases i
    · simp [get_flats_amount, get_flats_amount_from, hresp, hst]
    · simp [get_flats_amount, get_flats_amount_from, hto 0 (by omega), hresp, hst]
    · simp [get_flats_amount, get_flats_amount_from, hto 0 (by omega),
        hto 1 (by omega), hresp, hst]
  · intro hresp
    interval_cases i
    · simp [get_flats_amount, get_flats_amount_from, hresp]
    · simp [get_flats_amount, get_flats_amount_from, hto 0 (by omega), hresp]
    · simp [get_flats_amount, get_flats_amount_from, hto 0 (by omega),
        hto 1 (by omega), hresp]
  · intro c hresp
    interval_cases i
    · simp [get_flats_amount, get_flats_amount_from, hresp]
    · simp [get_flats_amount, get_flats_amount_from, hto 0 (by omega), hresp]
    · simp [get_flats_amount, get_flats_amount_from, hto 0 (by omega),
        hto 1 (by omega), hresp]
  · intro hall
    simp [get_flats_amount, get_flats_amount_from, hall 0 (by omega),
      hall 1 (by omega), hall 2 (by omega)]

/-- Witness for `get_flats_amount_spec`: a first-attempt 200 response with a
well-formed body returns its `prodCount`. -/
theorem get_flats_amount_spec_witness :
    get_flats_amount (fun _ => GFetch.response 200 (JsonBody.parsed 7)) = some 7 :=
  (get_flats_amount_spec (fun _ => GFetch.response 200 (JsonBody.parsed 7)) 0
    (by omega) (fun j hj => absurd hj (Nat.not_lt_zero j))).2.2.1 7 rfl

/-- Claim C10: if all three attempts of `__get_flats_amount` time out, the
method falls off its loop and returns Python `None` (not the integer 0);
`collect` still returns the empty set in that case, because
`_calculate_paging` treats the falsy count as zero pages and the final
length comparison of the empty collected set against `None` fails. -/
theorem gfa_timeout_collect_empty (gfaNet : Nat → GFetch)
    (h : ∀ i, i < 3 → gfaNet i = GFetch.timeout) :
    get_flats_amount gfaNet = none
    ∧ get_flats_amount gfaNet ≠ some 0
    ∧ (∀ p : Int, calculate_paging_arg none p = 0)
    ∧ (∀ st hs oracle,
        urls_collect gfaNet (CFetch.resp st hs) oracle = some []) := by
  have hn : get_flats_amount gfaNet = none := by
    simp [get_flats_amount, get_flats_amount_from, h 0 (by omega),
      h 1 (by omega), h 2 (by omega)]
  refine ⟨hn, by simp [hn], fun p => rfl, ?_⟩
  intro st hs oracle
  simp [urls_collect, hn, get_count_per_page, calculate_paging_arg,
    get_flats_urls]

/-- Witness for `gfa_timeout_collect_empty` at an always-timing-out count
endpoint. -/
theorem gfa_timeout_collect_empty_witness :
    get_flats_amount (fun _ => GFetch.timeout) = none
    ∧ urls_collect (fun _ => GFetch.timeout) (CFetch.resp 200 [])
        (fun _ _ => PFetch.timeout) = some [] :=
  ⟨(gfa_timeout_collect_empty (fun _ => GFetch.timeout) (fun _ _ => rfl)).1,
   (gfa_timeout_collect_empty (fun _ => GFetch.timeout) (fun _ _ => rfl)).2.2.2
     200 [] (fun _ _ => PFetch.timeout)⟩

/-! ### Detail-extractor theorems -/

/-- `floatParts` only produces non-negative rationals. -/
theorem floatParts_nonneg (ip rest : List Char) (q : ℚ)
    (h : floatParts ip rest = some q) : 0 ≤ q := by
  unfold floatParts at h
  split at h
  · split at h
    · simp at h
    · cases Option.some.inj h
      exact Rat.mkRat_nonneg (Int.ofNat_nonneg _) _
  · split at h
    · split at h
      · split at h
        · simp at h
        · cases Option.some.inj h
          exact Rat.mkRat_nonneg (Int.ofNat_nonneg _) _
      · simp at h
    · simp at h

/-- `pyFloat` produces a non-negative rational whenever the stripped input
does not begin with a minus sign. -/
theorem pyFloat_nonneg (s : String) (q : ℚ) (h : pyFloat s = some q)
    (hsign : (stripWs s.data).head? ≠ some '-') : 0 ≤ q := by
  unfold pyFloat at h
  split at h
  · simp at h
  · rename_i c rest heq
    have hc : ¬ c = '-' := by
      intro hcEq
      exact hsign (by rw [heq, hcEq]; rfl)
    rw [if_neg hc] at h
    by_cases hplus : c = '+'
    · rw [if_pos hplus] at h
      exact floatParts_nonneg _ _ _ h
    · rw [if_neg hplus] at h
      exact floatParts_nonneg _ _ _ h

/-- Successful runs of `parse_flat_page` decompose into the page shape and
field-parse facts the record was built from. -/
theorem parse_flat_page_some (plans : Option (List PlanImage)) (p : FlatPage)
    (r : ResponseSchema) (h : parse_flat_page plans p = some r) :
    ∃ ft bs building sec fl num rs as2 ph tail rooms area pt pts pr c0 cs,
      p.breadcrumbs = ft :: bs
      ∧ p.params_dl = building :: sec :: fl :: num :: rs :: as2 :: ph :: tail
      ∧ rooms_of ft rs = some rooms
      ∧ pyFloat (replaceCommas as2) = some area
      ∧ p.price_bar = pt :: pts
      ∧ pyFloat (filterDigits pt) = some pr
      ∧ p.comments = c0 :: cs
      ∧ r = { complex := "Домодедово парк(Московская область, г.Домодедово, с.Домодедово, ул.Творчества)"
              type := "flat"
              building := building
              section_ := sec
              floor := fl
              number := num
              number_on_site := filterDigits c0
              rooms := rooms
              area := area
              living_area := area
              phase := ph
              plan := plan_of plans
              price_finished := pr
              sale_status := sale_status_of p.is_reserved
              in_sale := true
              finished := 1 } := by
  unfold parse_flat_page at h
  split at h
  all_goals try exact Option.noConfusion h
  split at h
  all_goals try exact Option.noConfusion h
  split at h
  all_goals try exact Option.noConfusion h
  split at h
  all_goals try exact Option.noConfusion h
  split at h
  all_goals try exact Option.noConfusion h
  split at h
  all_goals try exact Option.noConfusion h
  split at h
  all_goals try exact Option.noConfusion h
  rename_i x6 ft bs hbc x5 building sec fl num rs as2 ph tail hdl x4 rooms
    hrooms x3 area harea x2 pt pts hpb x1 pr hpr x0 c0 cs hcm
  exact ⟨ft, bs, building, sec, fl, num, rs, as2, ph, tail, rooms, area,
    pt, pts, pr, c0, cs, hbc, hdl, hrooms, harea, hpb, hpr, hcm,
    (Option.some.inj h).symm⟩

/-- Claim C5: if the first breadcrumb of a successfully parsed listing page
contains the studio marker `'Студия'`, the `rooms` field of the record is
the sentinel `'studio'`, regardless of the numeric value in the fifth
definition-list entry; otherwise `rooms` is the integer parsed from that
entry. -/
theorem parse_rooms_spec (plans : Option (List PlanImage)) (p : FlatPage)
    (r : ResponseSchema) (h : parse_flat_page plans p = some r)
    (ft : String) (hft : p.breadcrumbs.head? = some ft) :
    (inStr studio_marker.data ft.data = true → r.rooms = Rooms.studio)
    ∧ (inStr studio_marker.data ft.data = false →
       ∃ rs n, p.params_dl[4]? = some rs ∧ pyInt rs = some n
         ∧ r.rooms = Rooms.num n) := by
  obtain ⟨ft2, bs, building, sec, fl, num, rs, as2, ph, tail, rooms, area,
    pt, pts, pr, c0, cs, hbc, hdl, hrooms, harea, hpb, hpr, hcm, hrec⟩ :=
    parse_flat_page_some plans p r h
  subst hrec
  rw [hbc] at hft
  cases Option.some.inj hft
  constructor
  · intro hcond
    rw [rooms_of, hcond] at hrooms
    simp only [if_pos rfl] at hrooms
    simpa using (Option.some.inj hrooms).symm
  · intro hcond
    rw [rooms_of, hcond] at hrooms
    simp only [Bool.false_eq_true, if_false] at hrooms
    rw [Option.map_eq_some'] at hrooms
    obtain ⟨n, hn, hnum2⟩ := hrooms
    refine ⟨rs, n, ?_, hn, by simpa using hnum2.symm⟩
    rw [hdl]
    rfl

/-- Witness for `parse_rooms_spec`: the studio page parses to the studio
sentinel. -/
theorem parse_rooms_spec_witness :
    parse_flat_page none studioPage = some studioRecord
    ∧ studioRecord.rooms = Rooms.studio :=
  ⟨by decide,
   (parse_rooms_spec none studioPage studioRecord (by decide)
     "Студия 25 м²" (by decide)).1 (by decide)⟩

/-- Claim C6: in every record produced by `parse_flat_page`, `area` and
`living_area` are equal, and both are obtained from the sixth
definition-list entry by replacing commas with periods and parsing the
result as a decimal number; `"12,5"` and `"12.5"` both parse to `12.5`. -/
theorem parse_area_spec (plans : Option (List PlanImage)) (p : FlatPage)
    (r : ResponseSchema) (h : parse_flat_page plans p = some r) :
    r.living_area = r.area
    ∧ (∀ s, p.params_dl[5]? = some s → pyFloat (replaceCommas s) = some r.area)
    ∧ pyFloat (replaceCommas "12,5") = some (mkRat 25 2)
    ∧ pyFloat "12.5" = some (mkRat 25 2) := by
  obtain ⟨ft2, bs, building, sec, fl, num, rs, as2, ph, tail, rooms, area,
    pt, pts, pr, c0, cs, hbc, hdl, hrooms, harea, hpb, hpr, hcm, hrec⟩ :=
    parse_flat_page_some plans p r h
  subst hrec
  refine ⟨rfl, ?_, by decide, by decide⟩
  intro s h5
  rw [hdl] at h5
  simp only [List.getElem?_cons_succ, List.getElem?_cons_zero] at h5
  cases Option.some.inj h5
  exact harea

/-- Witness for `parse_area_spec` on the concrete comma-decimal page. -/
theorem parse_area_spec_witness :
    parse_flat_page none goodPage = some goodRecord
    ∧ goodRecord.living_area = goodRecord.area
    ∧ pyFloat (replaceCommas "12,5") = some (mkRat 25 2)
    ∧ pyFloat "12.5" = some (mkRat 25 2) :=
  ⟨by decide,
   (parse_area_spec none goodPage goodRecord (by decide)).1,
   (parse_area_spec none goodPage goodRecord (by decide)).2.2.1,
   (parse_area_spec none goodPage goodRecord (by decide)).2.2.2⟩

/-- Claim C7: the `price_finished` field is computed from the price-bar
text by keeping exactly its digit characters in left-to-right order and
parsing the concatenation as a number; `"12 500 000 ₽"` yields `12500000`,
and a decimal point in the source is discarded (`"12.5"` yields `125`). -/
theorem parse_price_spec (plans : Option (List PlanImage)) (p : FlatPage)
    (r : ResponseSchema) (h : parse_flat_page plans p = some r) :
    (∀ t, p.price_bar.head? = some t →
      pyFloat (filterDigits t) = some r.price_finished)
    ∧ filterDigits "12 500 000 ₽" = "12500000"
    ∧ pyFloat (filterDigits "12 500 000 ₽") = some (mkRat 12500000 1)
    ∧ pyFloat (filterDigits "12.5") = some (mkRat 125 1) := by
  obtain ⟨ft2, bs, building, sec, fl, num, rs, as2, ph, tail, rooms, area,
    pt, pts, pr, c0, cs, hbc, hdl, hrooms, harea, hpb, hpr, hcm, hrec⟩ :=
    parse_flat_page_some plans p r h
  subst hrec
  refine ⟨?_, by decide, by decide, by decide⟩
  intro t ht
  rw [hpb] at ht
  cases Option.some.inj ht
  exact hpr

/-- Witness for `parse_price_spec` on the concrete page. -/
theorem parse_price_spec_witness :
    parse_flat_page none goodPage = some goodRecord
    ∧ pyFloat (filterDigits "12 500 000 ₽") = some goodRecord.price_finished
    ∧ filterDigits "12 500 000 ₽" = "12500000"
    ∧ pyFloat (filterDigits "12.5") = some (mkRat 125 1) :=
  ⟨by decide,
   (parse_price_spec none goodPage goodRecord (by decide)).1 "12 500 000 ₽" rfl,
   (parse_price_spec none goodPage goodRecord (by decide)).2.1,
   (parse_price_spec none goodPage goodRecord (by decide)).2.2.2⟩

/-- Counterexample to claim C8 as stated: a parseable page whose sixth
definition-list entry is `"-12,5"` produces a record whose `area` (and
`living_area`) is the negative number `-12.5`; the code nowhere enforces
non-negativity. -/
theorem parse_area_negative_example :
    (parse_flat_page none negPage).map ResponseSchema.area = some (mkRat (-25) 2)
    ∧ mkRat (-25) 2 < 0 := by decide

/-- Claim C8 (amended): in every record produced by `parse_flat_page`
whose sixth definition-list entry, after comma-to-period normalization and
whitespace stripping, does not begin with a minus sign, the `area` and
`living_area` fields are non-negative. -/
theorem parse_area_nonneg_of_no_minus (plans : Option (List PlanImage))
    (p : FlatPage) (r : ResponseSchema) (s : String)
    (h : parse_flat_page plans p = some r) (h5 : p.params_dl[5]? = some s)
    (hsign : (stripWs (replaceCommas s).data).head? ≠ some '-') :
    0 ≤ r.area ∧ 0 ≤ r.living_area := by
  obtain ⟨ft2, bs, building, sec, fl, num, rs, as2, ph, tail, rooms, area,
    pt, pts, pr, c0, cs, hbc, hdl, hrooms, harea, hpb, hpr, hcm, hrec⟩ :=
    parse_flat_page_some plans p r h
  subst hrec
  rw [hdl] at h5
  simp only [List.getElem?_cons_succ, List.getElem?_cons_zero] at h5
  cases Option.some.inj h5
  have hq : 0 ≤ area := pyFloat_nonneg _ _ harea hsign
  exact ⟨hq, hq⟩

/-- Witness for `parse_area_nonneg_of_no_minus` on the concrete
comma-decimal page. -/
theorem parse_area_nonneg_witness :
    parse_flat_page none goodPage = some goodRecord
    ∧ 0 ≤ goodRecord.area ∧ 0 ≤ goodRecord.living_area :=
  ⟨by decide,
   (parse_area_nonneg_of_no_minus none goodPage goodRecord "12,5" (by decide)
     (by decide) (by decide)).1,
   (parse_area_nonneg_of_no_minus none goodPage goodRecord "12,5" (by decide)
     (by decide) (by decide)).2⟩

/-- Claim C9: `DomodedovoGradFlatsParser.get_flat_page` makes up to 3
attempts; it returns the response body text exactly when an attempt within
the budget yields HTTP 200, and degrades to Python `None` — without
raising — when the budget is exhausted by timeouts or non-200 responses. -/
theorem get_flat_page_spec (net : Nat → FFetch) :
    ((∀ i, i < 3 → net i = FFetch.timeout) → get_flat_page net = Except.ok none)
    ∧ (∀ i t, i < 3 → net i = FFetch.resp 200 t →
        (∀ j, j < i → net j = FFetch.timeout
          ∨ ∃ st s, net j = FFetch.resp st s ∧ st ≠ 200) →
        get_flat_page net = Except.ok (some t))
    ∧ ((∀ i, i < 3 → net i = FFetch.timeout
          ∨ ∃ st s, net i = FFetch.resp st s ∧ st ≠ 200) →
        get_flat_page net = Except.ok none) := by
  have step : ∀ i r, (net i = FFetch.timeout
      ∨ ∃ st s, net i = FFetch.resp st s ∧ st ≠ 200) →
      get_flat_page_from net i (Nat.succ r) = get_flat_page_from net (i + 1) r := by
    intro i r hi
    rcases hi with hi | ⟨st, s, hi, hst⟩
    · simp [get_flat_page_from, hi]
    · simp [get_flat_page_from, hi, hst]
  refine ⟨?_, ?_, ?_⟩
  · intro h
    simp [get_flat_page, get_flat_page_from, h 0 (by omega), h 1 (by omega),
      h 2 (by omega)]
  · intro i t hi hresp hprev
    interval_cases i
    · simp [get_flat_page, get_flat_page_from, hresp]
    · rw [get_flat_page, step 0 2 (hprev 0 (by omega))]
      simp [get_flat_page_from, hresp]
    · rw [get_flat_page, step 0 2 (hprev 0 (by omega)),
        step 1 1 (hprev 1 (by omega))]
      simp [get_flat_page_from, hresp]
  · intro h
    rw [get_flat_page, step 0 2 (h 0 (by omega)), step 1 1 (h 1 (by omega)),
      step 2 0 (h 2 (by omega))]
    rfl

/-- Witness for `get_flat_page_spec`: a first-attempt 200 response returns
its body text. -/
theorem get_flat_page_spec_witness :
    get_flat_page (fun _ => FFetch.resp 200 "body") = Except.ok (some "body") :=
  (get_flat_page_spec (fun _ => FFetch.resp 200 "body")).2.1 0 "body" (by omega)
    rfl (fun j hj => absurd hj (Nat.not_lt_zero j))

/-- Claim C3 evaluated at its failing input: with three URLs where every
fetch attempt for `"u2"` times out and the other two pages fetch and parse
successfully, `DomodedovoGradFlatsParser.collect` does not produce a
two-record array — `get_flat_page` returns `None` without raising, and
`parse_flat_page(None)` then raises in the uncovered `else:` block, so the
whole call propagates an exception. -/
theorem flats_collect_crash_on_exhausted_retries :
    flats_collect oneUrlTimesOut alwaysParses ["u1", "u2", "u3"]
      = Except.error () := rfl

end DomodedovoGrad
